import Mathlib

/-!
Shallow embedding of the MultiBlog backend (src/app.py, Flask + MongoDB).

Documents are modelled as Lean structures plus an untyped association-list
view (`Doc`) mirroring the JSON/BSON dictionaries the handlers build.
MongoDB collections are lists in insertion ("natural") order; `find_one`
is `List.find?`, `find` is `List.filter`, `update_one` / `delete_one`
update or delete the first match, `update_many` / `delete_many` all
matches.  Nondeterministic inputs of the runtime (generated ObjectIds,
session tokens from `secrets.token_urlsafe`, `datetime.utcnow()`) are
passed to each handler as explicit parameters.  A handler that can let a
`bson` `InvalidId` exception escape (no surrounding try/except) returns
`Except Unit (Resp × DB)`, where `.error ()` is the unhandled exception
(surfaced by Flask as HTTP 500); handlers that catch everything return
`Resp × DB` directly.
-/

namespace MultiBlog

/-- `bson.ObjectId` modelled by its 24-character hex-string form. -/
abbrev Oid := String

def isHexCh (c : Char) : Bool :=
  (('0' ≤ c) && (c ≤ '9')) || (('a' ≤ c) && (c ≤ 'f')) || (('A' ≤ c) && (c ≤ 'F'))

/-- `ObjectId(s)` succeeds exactly on 24-character hex strings. -/
def validObjectId (s : String) : Bool :=
  (s.data.length == 24) && s.data.all isHexCh

/-- `ObjectId(s)`: `.error ()` models the raised `bson.errors.InvalidId`. -/
def objectIdOfString (s : String) : Except Unit Oid :=
  if validObjectId s then .ok s else .error ()

/-- Python truthiness of a value obtained from `data.get(key)`:
`None` (key absent or JSON null) and the empty string are falsy. -/
def truthy : Option String → Bool
  | none => false
  | some s => !(s == "")

def isDigitCh (c : Char) : Bool := ('0' ≤ c) && (c ≤ '9')

def digitsToNat : List Char → Nat → Nat
  | [], acc => acc
  | c :: cs, acc => digitsToNat cs (acc * 10 + (c.toNat - 48))

/-- Python `int(str)`: optional surrounding spaces, optional sign, then a
nonempty run of decimal digits; anything else raises `ValueError` (`none`). -/
def pyInt? (s : String) : Option Int :=
  let t := ((s.data.dropWhile (· == ' ')).reverse.dropWhile (· == ' ')).reverse
  match t with
  | '-' :: ds =>
      if !ds.isEmpty && ds.all isDigitCh then some (-(digitsToNat ds 0 : Int)) else none
  | '+' :: ds =>
      if !ds.isEmpty && ds.all isDigitCh then some (digitsToNat ds 0 : Int) else none
  | ds =>
      if !ds.isEmpty && ds.all isDigitCh then some (digitsToNat ds 0 : Int) else none

namespace SHA256

/-! `hashlib.sha256(...).hexdigest()` (FIPS 180-4), over `Nat` words
reduced mod `2^32`. -/

def M32 : Nat := 4294967296

def rotr (n x : Nat) : Nat := ((x >>> n) ||| (x <<< (32 - n))) % M32

def xor3 (a b c : Nat) : Nat := (a ^^^ b) ^^^ c

def bigS0 (x : Nat) : Nat := xor3 (rotr 2 x) (rotr 13 x) (rotr 22 x)

def bigS1 (x : Nat) : Nat := xor3 (rotr 6 x) (rotr 11 x) (rotr 25 x)

def smallS0 (x : Nat) : Nat := xor3 (rotr 7 x) (rotr 18 x) (x >>> 3)

def smallS1 (x : Nat) : Nat := xor3 (rotr 17 x) (rotr 19 x) (x >>> 10)

/-- The 64 round constants of FIPS 180-4 (written in decimal). -/
def K : List Nat :=
  [1116352408, 1899447441, 3049323471, 3921009573, 961987163,
   1508970993, 2453635748, 2870763221, 3624381080, 310598401,
   607225278, 1426881987, 1925078388, 2162078206, 2614888103,
   3248222580, 3835390401, 4022224774, 264347078, 604807628,
   770255983, 1249150122, 1555081692, 1996064986, 2554220882,
   2821834349, 2952996808, 3210313671, 3336571891, 3584528711,
   113926993, 338241895, 666307205, 773529912, 1294757372,
   1396182291, 1695183700, 1986661051, 2177026350, 2456956037,
   2730485921, 2820302411, 3259730800, 3345764771, 3516065817,
   3600352804, 4094571909, 275423344, 430227734, 506948616,
   659060556, 883997877, 958139571, 1322822218, 1537002063,
   1747873779, 1955562222, 2024104815, 2227730452, 2361852424,
   2428436474, 2756734187, 3204031479, 3329325298]

/-- The eight initial hash values of FIPS 180-4 (written in decimal). -/
def H0 : List Nat :=
  [1779033703, 3144134277, 1013904242, 2773480762,
   1359893119, 2600822924, 528734635, 1541459225]

/-- UTF-8 encoding of one character (`str.encode()` is UTF-8). -/
def charUtf8 (c : Char) : List Nat :=
  let n := c.toNat
  if n < 0x80 then [n]
  else if n < 0x800 then
    [0xC0 ||| (n >>> 6), 0x80 ||| (n &&& 0x3F)]
  else if n < 0x10000 then
    [0xE0 ||| (n >>> 12), 0x80 ||| ((n >>> 6) &&& 0x3F), 0x80 ||| (n &&& 0x3F)]
  else
    [0xF0 ||| (n >>> 18), 0x80 ||| ((n >>> 12) &&& 0x3F),
     0x80 ||| ((n >>> 6) &&& 0x3F), 0x80 ||| (n &&& 0x3F)]

def utf8Bytes : List Char → List Nat
  | [] => []
  | c :: cs => charUtf8 c ++ utf8Bytes cs

/-- `n` bytes of `v`, big-endian. -/
def bytesBE : Nat → Nat → List Nat
  | 0, _ => []
  | n + 1, v => ((v >>> (8 * n)) % 256) :: bytesBE n v

/-- Append `0x80`, zero padding to 56 mod 64, and the 64-bit bit length. -/
def pad (msg : List Nat) : List Nat :=
  let k := (120 - ((msg.length + 1) % 64)) % 64
  msg ++ 0x80 :: (List.replicate k 0 ++ bytesBE 8 (msg.length * 8))

def toWords : List Nat → List Nat
  | b0 :: b1 :: b2 :: b3 :: rest =>
      (((b0 * 256 + b1) * 256 + b2) * 256 + b3) :: toWords rest
  | _ => []

def wAt (w : List Nat) (i : Nat) : Nat := w.getD i 0

/-- Extend the 16-word schedule by `n` further words. -/
def extendLoop : Nat → List Nat → List Nat
  | 0, w => w
  | n + 1, w =>
      let len := w.length
      let t := (smallS1 (wAt w (len - 2)) + wAt w (len - 7) +
                smallS0 (wAt w (len - 15)) + wAt w (len - 16)) % M32
      extendLoop n (w ++ [t])

def notW (x : Nat) : Nat := x ^^^ (M32 - 1)

/-- One round of the compression function on state `[a,b,c,d,e,f,g,h]`. -/
def step (st : List Nat) (kw : Nat × Nat) : List Nat :=
  match st with
  | [a, b, c, d, e, f, g, h] =>
      let t1 := (h + bigS1 e + ((e &&& f) ^^^ ((notW e) &&& g)) + kw.1 + kw.2) % M32
      let t2 := (bigS0 a + (((a &&& b) ^^^ (a &&& c)) ^^^ (b &&& c))) % M32
      [(t1 + t2) % M32, a, b, c, (d + t1) % M32, e, f, g]
  | st => st

def addW : List Nat → List Nat → List Nat
  | x :: xs, y :: ys => ((x + y) % M32) :: addW xs ys
  | _, _ => []

def processBlock (h : List Nat) (block : List Nat) : List Nat :=
  let w := extendLoop 48 (toWords block)
  addW h ((K.zip w).foldl step h)

def processChunks : Nat → List Nat → List Nat → List Nat
  | 0, _, h => h
  | n + 1, msg, h => processChunks n (msg.drop 64) (processBlock h (msg.take 64))

def sha256Words (msg : List Nat) : List Nat :=
  let p := pad msg
  processChunks (p.length / 64) p H0

def hexCh (n : Nat) : Char :=
  if n < 10 then Char.ofNat (48 + n) else Char.ofNat (87 + n)

def wordHex : Nat → Nat → List Char
  | 0, _ => []
  | n + 1, v => hexCh ((v >>> (4 * n)) % 16) :: wordHex n v

def hexOfWords : List Nat → List Char
  | [] => []
  | w :: ws => wordHex 8 w ++ hexOfWords ws

end SHA256

/-- `hash_password(password)`: `hashlib.sha256(password.encode()).hexdigest()`. -/
def hash_password (password : String) : String :=
  ⟨SHA256.hexOfWords (SHA256.sha256Words (SHA256.utf8Bytes password.data))⟩

/-! ## Documents and the database -/

/-- A JSON/BSON value as the handlers build them. -/
inductive Value where
  | str : String → Value
  | nat : Nat → Value
  | oid : Oid → Value
  | null : Value
  | arr : List Value → Value
  | obj : List (String × Value) → Value
deriving Repr, BEq

/-- A document: a Python dict as an ordered association list. -/
abbrev Doc := List (String × Value)

/-- `str(v)` for the values that can sit at an id key in any handler flow
(only ObjectIds and strings ever do). -/
def strOfValue : Value → Value
  | .oid s => .str s
  | .str s => .str s
  | v => v

def idKeys : List String := ["_id", "blog_id", "post_id", "admin_id"]

/-- `serialize_doc` (src/app.py lines 39-50): stringify `_id`, `blog_id`,
`post_id`, `admin_id` when present, then pop `password_hash`.  A falsy
(empty) doc is returned unchanged. -/
def serialize_doc (doc : Doc) : Doc :=
  if doc.isEmpty then doc
  else
    (doc.map fun kv => if idKeys.contains kv.1 then (kv.1, strOfValue kv.2) else kv).filter
      fun kv => !(kv.1 == "password_hash")

structure AdminDoc where
  _id : Oid
  email : String
  password_hash : String
  name : String
  session_token : Option String
  created_at : Nat
  last_login : Option Nat
deriving Repr, DecidableEq

structure BlogDoc where
  _id : Oid
  admin_id : Oid
  name : String
  description : String
  categories : List String
  created_at : Nat
deriving Repr, DecidableEq

structure PostDoc where
  _id : Oid
  blog_id : Oid
  title : String
  excerpt : String
  content : String
  category : Option String
  image : Option String
  author : String
  likes : Nat
  created_at : Nat
  updated_at : Nat
deriving Repr, DecidableEq

structure CommentDoc where
  _id : Oid
  post_id : Oid
  blog_id : Oid
  name : String
  content : String
  created_at : Nat
deriving Repr, DecidableEq

def optStr : Option String → Value
  | none => .null
  | some s => .str s

/-- The admin document as stored in MongoDB (`_id` first, then insertion
order of `register`, then the fields `$set` by login). -/
def AdminDoc.toDoc (a : AdminDoc) : Doc :=
  [("_id", .oid a._id), ("email", .str a.email),
   ("password_hash", .str a.password_hash), ("name", .str a.name),
   ("created_at", .nat a.created_at)]
  ++ (match a.session_token with
      | some t => [("session_token", Value.str t)]
      | none => [])
  ++ (match a.last_login with
      | some t => [("last_login", Value.nat t)]
      | none => [])

def BlogDoc.toDoc (b : BlogDoc) : Doc :=
  [("_id", .oid b._id), ("admin_id", .oid b.admin_id), ("name", .str b.name),
   ("description", .str b.description),
   ("categories", .arr (b.categories.map .str)), ("created_at", .nat b.created_at)]

/-- The post document as read back from MongoDB (`_id` first). -/
def PostDoc.toDoc (p : PostDoc) : Doc :=
  [("_id", .oid p._id), ("blog_id", .oid p.blog_id), ("title", .str p.title),
   ("excerpt", .str p.excerpt), ("content", .str p.content),
   ("category", optStr p.category), ("image", optStr p.image),
   ("author", .str p.author), ("likes", .nat p.likes),
   ("created_at", .nat p.created_at), ("updated_at", .nat p.updated_at)]

/-- The `post_doc` dict in `create_post`: `post_doc['_id'] = str(...)` is
appended after insertion, so `_id` comes last and is already a string. -/
def PostDoc.toDocCreated (p : PostDoc) : Doc :=
  [("blog_id", .oid p.blog_id), ("title", .str p.title),
   ("excerpt", .str p.excerpt), ("content", .str p.content),
   ("category", optStr p.category), ("image", optStr p.image),
   ("author", .str p.author), ("likes", .nat p.likes),
   ("created_at", .nat p.created_at), ("updated_at", .nat p.updated_at),
   ("_id", .str p._id)]

/-- The four MongoDB collections, each in natural (insertion) order. -/
structure DB where
  admins : List AdminDoc
  blogs : List BlogDoc
  posts : List PostDoc
  comments : List CommentDoc
deriving Repr, DecidableEq

structure Resp where
  status : Nat
  body : Doc
deriving Repr

def errResp (status : Nat) (msg : String) : Resp :=
  { status, body := [("error", .str msg)] }

def msgResp (status : Nat) (msg : String) : Resp :=
  { status, body := [("message", .str msg)] }

/-- `update_one`: apply `f` to the first element matching `p`. -/
def updateFirst (p : α → Bool) (f : α → α) : List α → List α
  | [] => []
  | x :: xs => if p x then f x :: xs else x :: updateFirst p f xs

/-- `delete_one`: remove the first element matching `p`. -/
def deleteFirst (p : α → Bool) : List α → List α
  | [] => []
  | x :: xs => if p x then xs else x :: deleteFirst p xs

/-! ## Authentication and ownership -/

def missingAuthResp : Resp := errResp 401 "Missing or invalid authorization"

def invalidSessionResp : Resp := errResp 401 "Invalid or expired session"

/-- Python `h.split(' ')` (keeps empty fields). -/
def splitSp : List Char → List (List Char)
  | [] => [[]]
  | c :: cs =>
      let r := splitSp cs
      if c == ' ' then [] :: r
      else
        match r with
        | h :: t => (c :: h) :: t
        | [] => [[c]]

/-- `auth_header.split(' ')[1]`. -/
def bearerToken (h : String) : String :=
  match splitSp h.data with
  | _ :: t :: _ => ⟨t⟩
  | _ => ""

/-- The `require_admin` decorator (src/app.py lines 53-68): maps the
`Authorization` header to the admin whose stored `session_token` equals the
presented token, or to a 401 response. -/
def require_admin (db : DB) (authHeader : Option String) : Resp ⊕ AdminDoc :=
  match authHeader with
  | none => .inl missingAuthResp
  | some h =>
      if "Bearer ".data.isPrefixOf h.data then
        let token := bearerToken h
        match db.admins.find? (fun a => a.session_token == some token) with
        | some admin => .inr admin
        | none => .inl invalidSessionResp
      else .inl missingAuthResp

/-- The single-document ownership query
`blogs.find_one({'_id': blog_id, 'admin_id': admin_id})`. -/
def ownsBlog (db : DB) (admin_id blog_id : Oid) : Bool :=
  (db.blogs.find? fun b => (b._id == blog_id) && (b.admin_id == admin_id)).isSome

/-- `verify_blog_ownership` (src/app.py lines 71-73) as called with a raw
path id: `ObjectId(blog_id)` is constructed with no surrounding try/except,
so a malformed id raises (`.error`).  `ObjectId(admin_id)` of an ObjectId
is the identity.  Where the source passes an already-decoded
`post['blog_id']` / `comment['blog_id']`, the embedding calls `ownsBlog`
directly. -/
def verify_blog_ownership (db : DB) (admin_id : Oid) (blog_id : String) :
    Except Unit Bool :=
  match objectIdOfString blog_id with
  | .error e => .error e
  | .ok b => .ok (ownsBlog db admin_id b)

/-! ## Handlers

Request JSON fields are modelled at the types the handler stores
(strings, string lists); `data.get(key)` yields `none` for an absent key
or JSON null.  `newId`, `tok`, `now` stand for the generated ObjectId,
`secrets.token_urlsafe(32)` and `datetime.utcnow()` respectively. -/

/-- `POST /api/admin/register` (src/app.py lines 77-105). -/
def register_admin (db : DB) (email? password? name? : Option String)
    (newId : Oid) (now : Nat) : Resp × DB :=
  if !(truthy email? && truthy password? && truthy name?) then
    (errResp 400 "Email, password, and name are required", db)
  else
    let email := email?.getD ""
    if (db.admins.find? fun a => a.email == email).isSome then
      (errResp 409 "Admin with this email already exists", db)
    else
      let doc : AdminDoc :=
        { _id := newId, email, password_hash := hash_password (password?.getD ""),
          name := name?.getD "", session_token := none, created_at := now,
          last_login := none }
      ({ status := 201,
         body := [("message", .str "Admin registered successfully"),
                  ("admin_id", .str newId)] },
       { db with admins := db.admins ++ [doc] })

/-- `POST /api/admin/login` (src/app.py lines 107-138). -/
def login_admin (db : DB) (email? password? : Option String) (tok : String)
    (now : Nat) : Resp × DB :=
  if !(truthy email? && truthy password?) then
    (errResp 400 "Email and password are required", db)
  else
    let email := email?.getD ""
    let password := password?.getD ""
    match db.admins.find? (fun a => a.email == email) with
    | none => (errResp 401 "Invalid email or password", db)
    | some admin =>
        if !(admin.password_hash == hash_password password) then
          (errResp 401 "Invalid email or password", db)
        else
          ({ status := 200,
             body := [("message", .str "Login successful"),
                      ("session_token", .str tok),
                      ("admin", .obj [("id", .str admin._id),
                                      ("email", .str admin.email),
                                      ("name", .str admin.name)])] },
           { db with admins := (updateFirst (fun a => a._id == admin._id)
               (fun a => { a with session_token := some tok, last_login := some now })
               db.admins) })

/-- `POST /api/admin/logout` (src/app.py lines 140-149): `$unset` of
`session_token`. -/
def logout_admin (db : DB) (auth : Option String) : Resp × DB :=
  match require_admin db auth with
  | .inl r => (r, db)
  | .inr admin =>
      (msgResp 200 "Logged out successfully",
       { db with admins := (updateFirst (fun a => a._id == admin._id)
           (fun a => { a with session_token := none }) db.admins) })

/-- `GET /api/admin/profile` (src/app.py lines 151-156). -/
def get_admin_profile (db : DB) (auth : Option String) : Resp × DB :=
  match require_admin db auth with
  | .inl r => (r, db)
  | .inr admin => ({ status := 200, body := serialize_doc admin.toDoc }, db)

/-- `GET /api/blogs/<blog_id>` (src/app.py lines 200-211): the ObjectId
construction is inside try/except, so a malformed id yields 400. -/
def get_blog (db : DB) (blog_id : String) : Resp × DB :=
  match objectIdOfString blog_id with
  | .error _ => (errResp 400 "Invalid blog ID format", db)
  | .ok b =>
      match db.blogs.find? (fun bl => bl._id == b) with
      | none => (errResp 404 "Blog not found", db)
      | some blog => ({ status := 200, body := serialize_doc blog.toDoc }, db)

def forbiddenResp : Resp := errResp 403 "Unauthorized - you do not own this blog"

/-- `PUT /api/blogs/<blog_id>` (src/app.py lines 213-240).  The raw id
goes straight into `verify_blog_ownership`; a malformed id raises
uncaught (`.error`).  The `isinstance(categories, list)` branch cannot
fire in this typed model. -/
def update_blog (db : DB) (auth : Option String) (blog_id : String)
    (name? desc? : Option String) (cats? : Option (List String)) :
    Except Unit (Resp × DB) :=
  match require_admin db auth with
  | .inl r => .ok (r, db)
  | .inr admin =>
      match verify_blog_ownership db admin._id blog_id with
      | .error e => .error e
      | .ok owns =>
      if !owns then .ok (forbiddenResp, db)
      else if name?.isNone && desc?.isNone && cats?.isNone then
        .ok (errResp 400 "No fields to update", db)
      else
        match objectIdOfString blog_id with
        | .error e => .error e
        | .ok b =>
        .ok (msgResp 200 "Blog updated successfully",
          { db with blogs := (updateFirst (fun bl => bl._id == b)
              (fun bl =>
                { bl with name := name?.getD bl.name,
                          description := desc?.getD bl.description,
                          categories := cats?.getD bl.categories }) db.blogs) })

/-- `DELETE /api/blogs/<blog_id>` (src/app.py lines 242-259).  The blog
document is deleted first, then the cascade on posts and comments; the
`post_ids` list the source computes is never used and is omitted. -/
def delete_blog (db : DB) (auth : Option String) (blog_id : String) :
    Except Unit (Resp × DB) :=
  match require_admin db auth with
  | .inl r => .ok (r, db)
  | .inr admin =>
      match verify_blog_ownership db admin._id blog_id with
      | .error e => .error e
      | .ok owns =>
      if !owns then .ok (forbiddenResp, db)
      else
        match objectIdOfString blog_id with
        | .error e => .error e
        | .ok b =>
        let deleted := (db.blogs.find? fun bl => bl._id == b).isSome
        let db1 := { db with blogs := deleteFirst (fun bl => bl._id == b) db.blogs }
        if !deleted then .ok (errResp 404 "Blog not found", db1)
        else
          .ok (msgResp 200 "Blog and all associated content deleted",
            { db1 with posts := db1.posts.filter (fun p => !(p.blog_id == b)),
                       comments := db1.comments.filter fun c => !(c.blog_id == b) })

def invalidCategoryResp (cats : List String) : Resp :=
  errResp 400 ("Invalid category. Must be one of: " ++ String.intercalate ", " cats)

/-- `POST /api/blogs/<blog_id>/posts` (src/app.py lines 263-302).  The raw
id goes into `verify_blog_ownership` (malformed raises); after ownership
passed, `ObjectId(blog_id)` cannot fail again.  `if category:` skips
validation for an absent, null, or empty-string category.  `author`
defaults to the admin's name. -/
def create_post (db : DB) (auth : Option String) (blog_id : String)
    (title? content? excerpt? category? image? author? : Option String)
    (newId : Oid) (now : Nat) : Except Unit (Resp × DB) :=
  match require_admin db auth with
  | .inl r => .ok (r, db)
  | .inr admin =>
      match verify_blog_ownership db admin._id blog_id with
      | .error e => .error e
      | .ok owns =>
          if !owns then .ok (forbiddenResp, db)
          else if !(truthy title? && truthy content?) then
            .ok (errResp 400 "Title and content are required", db)
          else
            match objectIdOfString blog_id with
            | .error e => .error e
            | .ok b =>
                let proceed : Resp × DB :=
                  let doc : PostDoc :=
                    { _id := newId, blog_id := b, title := title?.getD "",
                      excerpt := excerpt?.getD "", content := content?.getD "",
                      category := category?, image := image?,
                      author := author?.getD admin.name, likes := 0,
                      created_at := now, updated_at := now }
                  ({ status := 201,
                     body := [("message", .str "Post created successfully"),
                              ("post", .obj (serialize_doc doc.toDocCreated))] },
                   { db with posts := db.posts ++ [doc] })
                if truthy category? then
                  match db.blogs.find? (fun bl => bl._id == b) with
                  | none => .error ()
                  | some blog =>
                      if !(blog.categories.contains (category?.getD "")) then
                        .ok (invalidCategoryResp blog.categories, db)
                      else .ok proceed
                else .ok proceed

/-- Stable insertion into a list sorted by `created_at` descending. -/
def insertCreatedDesc (x : PostDoc) : List PostDoc → List PostDoc
  | [] => [x]
  | y :: ys =>
      if y.created_at < x.created_at then x :: y :: ys
      else y :: insertCreatedDesc x ys

/-- `posts.find(query).sort('created_at', -1)`. -/
def sortCreatedDesc : List PostDoc → List PostDoc
  | [] => []
  | x :: xs => insertCreatedDesc x (sortCreatedDesc xs)

/-- The `query` dict of `get_posts`: `blog_id` always, plus an exact
`category` match when the filter value is truthy. -/
def postQuery (b : Oid) (category? : Option String) (p : PostDoc) : Bool :=
  (p.blog_id == b) &&
    (if truthy category? then p.category == some (category?.getD "") else true)

/-- `GET /api/blogs/<blog_id>/posts` (src/app.py lines 304-337).  `page`
and `limit` are parsed with `int()` (`ValueError` is caught, 400), then
range-checked.  `ObjectId(blog_id)` is constructed at the query build,
OUTSIDE the later try/except, so a malformed id raises uncaught
(`.error`); the `except` at line 327 is unreachable. -/
def get_posts (db : DB) (blog_id : String) (page? limit? category? : Option String) :
    Except Unit (Resp × DB) :=
  let pageParsed : Option Int :=
    match page? with
    | none => some 1
    | some s => pyInt? s
  let limitParsed : Option Int :=
    match limit? with
    | none => some 10
    | some s => pyInt? s
  match pageParsed, limitParsed with
  | some page, some limit =>
      if page < 1 || limit < 1 || limit > 100 then
        .ok (errResp 400 "Page must be >= 1 and limit must be between 1 and 100", db)
      else
        let skip := ((page - 1) * limit).toNat
        match objectIdOfString blog_id with
        | .error e => .error e
        | .ok b =>
            let filtered := db.posts.filter (postQuery b category?)
            let post_list := ((sortCreatedDesc filtered).drop skip).take limit.toNat
            let total := filtered.length
            .ok ({ status := 200,
                   body := [("posts",
                             .arr (post_list.map fun p => .obj (serialize_doc p.toDoc))),
                            ("total", .nat total), ("page", .nat page.toNat),
                            ("pages", .nat ((total + limit.toNat - 1) / limit.toNat)),
                            ("category", optStr category?)] }, db)
  | _, _ => .ok (errResp 400 "Invalid page or limit parameter", db)

/-- `PUT /api/posts/<post_id>` (src/app.py lines 352-395).  `catU` models
the `category` body key: `none` = key absent, `some none` = present null,
`some (some c)` = present string.  A present falsy category skips the
set-membership check but is still stored. -/
def update_post (db : DB) (auth : Option String) (post_id : String)
    (title? excerpt? content? image? : Option String)
    (catU : Option (Option String)) (now : Nat) : Except Unit (Resp × DB) :=
  match require_admin db auth with
  | .inl r => .ok (r, db)
  | .inr admin =>
      match objectIdOfString post_id with
      | .error _ => .ok (errResp 400 "Invalid post ID format", db)
      | .ok pid =>
          match db.posts.find? (fun p => p._id == pid) with
          | none => .ok (errResp 404 "Post not found", db)
          | some post =>
              if !(ownsBlog db admin._id post.blog_id) then .ok (forbiddenResp, db)
              else
                let applyFields : PostDoc → PostDoc := fun p =>
                  { p with
                    title := title?.getD p.title,
                    excerpt := excerpt?.getD p.excerpt,
                    content := content?.getD p.content,
                    image := (match image? with
                              | some i => some i
                              | none => p.image),
                    category := (match catU with
                                 | some c => c
                                 | none => p.category),
                    updated_at := now }
                let anyField := title?.isSome || excerpt?.isSome || content?.isSome ||
                    image?.isSome || catU.isSome
                let finish : Except Unit (Resp × DB) :=
                  if !anyField then .ok (errResp 400 "No fields to update", db)
                  else
                    .ok (msgResp 200 "Post updated successfully",
                      { db with posts :=
                          updateFirst (fun p => p._id == pid) applyFields db.posts })
                match catU with
                | some catv =>
                    match db.blogs.find? (fun bl => bl._id == post.blog_id) with
                    | none => .error ()
                    | some blog =>
                        if truthy catv && !(blog.categories.contains (catv.getD "")) then
                          .ok (invalidCategoryResp blog.categories, db)
                        else finish
                | none => finish

/-- `DELETE /api/posts/<post_id>` (src/app.py lines 397-415): cascades to
the post's comments by `post_id`. -/
def delete_post (db : DB) (auth : Option String) (post_id : String) : Resp × DB :=
  match require_admin db auth with
  | .inl r => (r, db)
  | .inr admin =>
      match objectIdOfString post_id with
      | .error _ => (errResp 400 "Invalid post ID format", db)
      | .ok pid =>
          match db.posts.find? (fun p => p._id == pid) with
          | none => (errResp 404 "Post not found", db)
          | some post =>
              if !(ownsBlog db admin._id post.blog_id) then (forbiddenResp, db)
              else
                (msgResp 200 "Post and associated comments deleted",
                 { db with posts := deleteFirst (fun p => p._id == pid) db.posts,
                           comments := db.comments.filter fun c => !(c.post_id == pid) })

def incLikes (p : PostDoc) : PostDoc := { p with likes := p.likes + 1 }

/-- `POST /api/posts/<post_id>/like` (src/app.py lines 419-434): anonymous
`$inc` of `likes` on the matched post, then a re-fetch for the response. -/
def like_post (db : DB) (post_id : String) : Except Unit (Resp × DB) :=
  match objectIdOfString post_id with
  | .error _ => .ok (errResp 400 "Invalid post ID format", db)
  | .ok pid =>
      let matched := (db.posts.find? fun p => p._id == pid).isSome
      let db1 := { db with posts := updateFirst (fun p => p._id == pid) incLikes db.posts }
      if !matched then .ok (errResp 404 "Post not found", db1)
      else
        match db1.posts.find? (fun p => p._id == pid) with
        | none => .error ()
        | some post => .ok ({ status := 200, body := [("likes", .nat post.likes)] }, db1)

/-- `DELETE /api/comments/<comment_id>` (src/app.py lines 488-505):
ownership is checked against the comment's denormalized `blog_id`, never
through the parent post. -/
def delete_comment (db : DB) (auth : Option String) (comment_id : String) :
    Resp × DB :=
  match require_admin db auth with
  | .inl r => (r, db)
  | .inr admin =>
      match objectIdOfString comment_id with
      | .error _ => (errResp 400 "Invalid comment ID format", db)
      | .ok cid =>
          match db.comments.find? (fun c => c._id == cid) with
          | none => (errResp 404 "Comment not found", db)
          | some comment =>
              if !(ownsBlog db admin._id comment.blog_id) then (forbiddenResp, db)
              else
                (msgResp 200 "Comment deleted successfully",
                 { db with comments := deleteFirst (fun c => c._id == cid) db.comments })

/-- `incLikes` with the counter forgotten: used to state that a like
changes nothing besides the `likes` field. -/
def eraseLikes (p : PostDoc) : PostDoc := { p with likes := 0 }

/-- Referential integrity maintained by the cascade: every post's
`blog_id` references an existing blog. -/
def blogIntegrity (db : DB) : Prop :=
  ∀ p ∈ db.posts, ∃ bl ∈ db.blogs, bl._id = p.blog_id

/-! ## Concrete fixtures used by witnesses and counterexamples -/

def oidAdminA : Oid := "aaaaaaaaaaaaaaaaaaaaaaaa"

def oidAdminC : Oid := "cccccccccccccccccccccccc"

def oidBlogB : Oid := "bbbbbbbbbbbbbbbbbbbbbbbb"

def oidPostP : Oid := "dddddddddddddddddddddddd"

def oidCommentK : Oid := "eeeeeeeeeeeeeeeeeeeeeeee"

def oidFresh : Oid := "ffffffffffffffffffffffff"

def oidAbsent : Oid := "0123456789abcdef01234567"

def adminA : AdminDoc :=
  { _id := oidAdminA, email := "a@x.com", password_hash := hash_password "pw",
    name := "A", session_token := some "tokA", created_at := 1, last_login := none }

def adminC : AdminDoc :=
  { _id := oidAdminC, email := "c@x.com", password_hash := hash_password "pw2",
    name := "C", session_token := some "tokC", created_at := 2, last_login := none }

def blogB : BlogDoc :=
  { _id := oidBlogB, admin_id := oidAdminA, name := "B", description := "",
    categories := ["tech"], created_at := 3 }

def postP : PostDoc :=
  { _id := oidPostP, blog_id := oidBlogB, title := "T", excerpt := "",
    content := "body", category := none, image := none, author := "A",
    likes := 0, created_at := 4, updated_at := 4 }

def commentK : CommentDoc :=
  { _id := oidCommentK, post_id := oidPostP, blog_id := oidBlogB,
    name := "Anonymous", content := "hi", created_at := 5 }

def sampleDB : DB :=
  { admins := [adminA, adminC], blogs := [blogB], posts := [postP],
    comments := [commentK] }

def pagedPost (i : Nat) : PostDoc :=
  { _id := oidFresh, blog_id := oidBlogB, title := "t", excerpt := "",
    content := "c", category := none, image := none, author := "A",
    likes := 0, created_at := i + 1, updated_at := i + 1 }

def pagedDB : DB :=
  { admins := [], blogs := [blogB], posts := ((List.range 25).map pagedPost),
    comments := [] }

/-! ## Lemmas about the SHA-256 digest -/

theorem SHA256.step_length (st : List Nat) (kw : Nat × Nat) :
    (SHA256.step st kw).length = st.length := by
  unfold SHA256.step
  split <;> simp

theorem SHA256.foldl_step_length (l : List (Nat × Nat)) (h : List Nat) :
    (l.foldl SHA256.step h).length = h.length := by
  induction l generalizing h with
  | nil => rfl
  | cons x xs ih => simpa [List.foldl, SHA256.step_length] using ih (SHA256.step h x)

theorem SHA256.addW_length (xs ys : List Nat) :
    (SHA256.addW xs ys).length = min xs.length ys.length := by
  induction xs generalizing ys with
  | nil => simp [SHA256.addW]
  | cons x xs ih =>
      cases ys with
      | nil => simp [SHA256.addW]
      | cons y ys => simp [SHA256.addW, ih, Nat.succ_min_succ]

theorem SHA256.processBlock_length (h block : List Nat) :
    (SHA256.processBlock h block).length = h.length := by
  simp [SHA256.processBlock, SHA256.addW_length, SHA256.foldl_step_length]

theorem SHA256.processChunks_length (n : Nat) (msg h : List Nat) :
    (SHA256.processChunks n msg h).length = h.length := by
  induction n generalizing msg h with
  | zero => rfl
  | succ n ih => simp [SHA256.processChunks, ih, SHA256.processBlock_length]

theorem SHA256.sha256Words_length (msg : List Nat) :
    (SHA256.sha256Words msg).length = 8 := by
  simp [SHA256.sha256Words, SHA256.processChunks_length]
  rfl

theorem SHA256.wordHex_length (n v : Nat) : (SHA256.wordHex n v).length = n := by
  induction n generalizing v with
  | zero => rfl
  | succ n ih => simp [SHA256.wordHex, ih]

theorem SHA256.hexOfWords_length (ws : List Nat) :
    (SHA256.hexOfWords ws).length = 8 * ws.length := by
  induction ws with
  | nil => rfl
  | cons w ws ih =>
      simp [SHA256.hexOfWords, SHA256.wordHex_length, ih, Nat.mul_succ]
      omega

theorem hash_password_length (p : String) : (hash_password p).length = 64 := by
  simp [hash_password, String.length, SHA256.hexOfWords_length,
    SHA256.sha256Words_length]

theorem hash_password_ne_of_length (p : String) (h : p.length ≠ 64) :
    hash_password p ≠ p := by
  intro he
  exact h (he ▸ hash_password_length p)

/-! ## Lemmas about the collection helpers -/

theorem find?_updateFirst_none {α} (p q : α → Bool) (f : α → α) (l : List α)
    (hq : ∀ y ∈ l, q y = true → p y = true)
    (hf : ∀ y, q (f y) = false)
    (hu : l.Pairwise fun a b => ¬(p a = true ∧ p b = true)) :
    (updateFirst p f l).find? q = none := by
  induction l with
  | nil => rfl
  | cons x xs ih =>
      rw [List.pairwise_cons] at hu
      by_cases hx : p x = true
      · rw [updateFirst, if_pos hx, List.find?, hf x]
        rw [List.find?_eq_none]
        intro y hy hqy
        exact hu.1 y hy ⟨hx, hq y (List.mem_cons_of_mem x hy) hqy⟩
      · rw [updateFirst, if_neg hx, List.find?]
        have hqx : q x = false := by
          cases hqx : q x with
          | false => rfl
          | true => exact absurd (hq x (List.mem_cons_self x xs) hqx) hx
        rw [hqx]
        exact ih (fun y hy => hq y (List.mem_cons_of_mem x hy)) hu.2

theorem find?_updateFirst_same {α} (p : α → Bool) (f : α → α) (l : List α)
    (hf : ∀ y, p y = true → p (f y) = true) :
    (updateFirst p f l).find? p = (l.find? p).map f := by
  induction l with
  | nil => rfl
  | cons x xs ih =>
      by_cases hx : p x = true
      · rw [updateFirst, if_pos hx, List.find?, hf x hx, List.find?, hx]
        rfl
      · have hx' : p x = false := by
          cases h : p x with
          | false => rfl
          | true => exact absurd h hx
        rw [updateFirst, if_neg hx, List.find?, hx', List.find?, hx']
        exact ih

theorem find?_deleteFirst_none {α} (p q : α → Bool) (l : List α)
    (hq : ∀ y ∈ l, q y = true → p y = true)
    (hu : l.Pairwise fun a b => ¬(p a = true ∧ p b = true)) :
    (deleteFirst p l).find? q = none := by
  induction l with
  | nil => rfl
  | cons x xs ih =>
      rw [List.pairwise_cons] at hu
      by_cases hx : p x = true
      · rw [deleteFirst, if_pos hx, List.find?_eq_none]
        intro y hy hqy
        exact hu.1 y hy ⟨hx, hq y (List.mem_cons_of_mem x hy) hqy⟩
      · rw [deleteFirst, if_neg hx, List.find?]
        have hqx : q x = false := by
          cases hqx : q x with
          | false => rfl
          | true => exact absurd (hq x (List.mem_cons_self x xs) hqx) hx
        rw [hqx]
        exact ih (fun y hy => hq y (List.mem_cons_of_mem x hy)) hu.2

theorem updateFirst_split {α} (p : α → Bool) (f : α → α) (l : List α) (x : α)
    (h : l.find? p = some x) :
    ∃ l₁ l₂, l = l₁ ++ x :: l₂ ∧ updateFirst p f l = l₁ ++ f x :: l₂ := by
  induction l with
  | nil => simp at h
  | cons y ys ih =>
      by_cases hy : p y = true
      · rw [List.find?, hy] at h
        obtain rfl : y = x := by injection h
        exact ⟨[], ys, rfl, by rw [updateFirst, if_pos hy]; rfl⟩
      · have hy' : p y = false := by
          cases hc : p y with
          | false => rfl
          | true => exact absurd hc hy
        rw [List.find?, hy'] at h
        obtain ⟨l₁, l₂, he, hu⟩ := ih h
        exact ⟨y :: l₁, l₂, by rw [he]; rfl, by rw [updateFirst, if_neg hy, hu]; rfl⟩

theorem map_updateFirst {α β} (p : α → Bool) (f : α → α) (g : α → β) (l : List α)
    (h : ∀ y, g (f y) = g y) : (updateFirst p f l).map g = l.map g := by
  induction l with
  | nil => rfl
  | cons x xs ih =>
      by_cases hx : p x = true
      · rw [updateFirst, if_pos hx, List.map, List.map, h x]
      · rw [updateFirst, if_neg hx, List.map, List.map, ih]

theorem find?_eq_of_mem_unique {α} (p : α → Bool) (l : List α) (x : α)
    (hm : x ∈ l) (hp : p x = true)
    (hu : l.Pairwise fun a b => ¬(p a = true ∧ p b = true)) :
    l.find? p = some x := by
  induction l with
  | nil => simp at hm
  | cons y ys ih =>
      rw [List.pairwise_cons] at hu
      rcases List.mem_cons.mp hm with rfl | hm'
      · rw [List.find?, hp]
      · have hy : p y = false := by
          cases hc : p y with
          | false => rfl
          | true => exact absurd ⟨hc, hp⟩ (hu.1 x hm')
        rw [List.find?, hy]
        exact ih hm' hu.2

theorem filter_not_filter_nil {α} (q : α → Bool) (l : List α) :
    ((l.filter fun x => !(q x)).filter q) = [] := by
  rw [List.filter_eq_nil_iff]
  intro a ha
  have := (List.mem_filter.mp ha).2
  cases h : q a with
  | false => simp [h]
  | true => rw [h] at this; simp at this

/-! ## Lemmas about serialization and the auth header -/

theorem serialize_doc_no_password (doc : Doc) (v : Value) :
    ("password_hash", v) ∉ serialize_doc doc := by
  cases doc with
  | nil => simp [serialize_doc]
  | cons kv kvs =>
      intro hm
      have he : serialize_doc (kv :: kvs) =
          ((kv :: kvs).map fun x =>
            if idKeys.contains x.1 then (x.1, strOfValue x.2) else x).filter
            (fun x => !(x.1 == "password_hash")) := rfl
      rw [he] at hm
      have h2 := (List.mem_filter.mp hm).2
      simp at h2

theorem serialize_admin_session_token (a : AdminDoc) (t : String)
    (h : a.session_token = some t) :
    (serialize_doc a.toDoc).lookup "session_token" = some (Value.str t) := by
  unfold AdminDoc.toDoc serialize_doc
  rw [h]
  cases a.last_login <;> rfl

theorem splitSp_no_space (l : List Char) (h : ∀ c ∈ l, c ≠ ' ') :
    splitSp l = [l] := by
  induction l with
  | nil => rfl
  | cons c cs ih =>
      have hc : (c == ' ') = false := by
        cases hc : c == ' ' with
        | false => rfl
        | true => exact absurd (by simpa using hc) (h c (List.mem_cons_self c cs))
      simp [splitSp, ih (fun d hd => h d (List.mem_cons_of_mem c hd)), hc]

theorem bearerToken_bearer (t : String) (h : ∀ c ∈ t.data, c ≠ ' ') :
    bearerToken ("Bearer " ++ t) = t := by
  have hd : ("Bearer " ++ t).data = 'B' :: 'e' :: 'a' :: 'r' :: 'e' :: 'r' :: ' ' :: t.data := by
    rw [String.data_append]
    rfl
  rw [bearerToken, hd]
  simp [splitSp, splitSp_no_space t.data h]

theorem bearer_isPrefixOf (t : String) :
    "Bearer ".data.isPrefixOf ("Bearer " ++ t).data = true := by
  rw [String.data_append, List.isPrefixOf_iff_prefix]
  exact List.prefix_append _ _

/-! ## Claims -/

/-- C1, counterexample: the claim says the admin's stored session token
appears only in the login response and in particular that the GET
/admin/profile response contains no raw session token.  False: for a
logged-in admin, `serialize_doc` removes only `password_hash`, so the
profile response includes the stored raw session token. -/
theorem C1_counterexample :
    adminA.session_token = some "tokA" ∧
    (get_admin_profile sampleDB (some "Bearer tokA")).1.status = 200 ∧
    (get_admin_profile sampleDB (some "Bearer tokA")).1.body.lookup "session_token"
      = some (Value.str "tokA") :=
  ⟨rfl, rfl, rfl⟩

/-- C1, amended: serialized output never contains the password digest, but
the stored session token appears not only at login: the GET /admin/profile
response is the serialized admin document and includes the raw stored
session token. -/
theorem C1_amended_profile (db : DB) (auth : Option String) (a : AdminDoc)
    (t : String)
    (hreq : require_admin db auth = .inr a)
    (htok : a.session_token = some t) :
    get_admin_profile db auth = ({ status := 200, body := serialize_doc a.toDoc }, db) ∧
    (∀ v : Value, ("password_hash", v) ∉ (get_admin_profile db auth).1.body) ∧
    (get_admin_profile db auth).1.body.lookup "session_token" = some (Value.str t) := by
  have h1 : get_admin_profile db auth =
      ({ status := 200, body := serialize_doc a.toDoc }, db) := by
    simp [get_admin_profile, hreq]
  refine ⟨h1, ?_, ?_⟩
  · intro v
    rw [h1]
    exact serialize_doc_no_password a.toDoc v
  · rw [h1]
    exact serialize_admin_session_token a t htok

/-- C1, witness for the amended theorem at a concrete store. -/
theorem C1_amended_profile_witness :
    require_admin sampleDB (some "Bearer tokA") = .inr adminA ∧
    adminA.session_token = some "tokA" ∧
    (get_admin_profile sampleDB (some "Bearer tokA") =
        ({ status := 200, body := serialize_doc adminA.toDoc }, sampleDB) ∧
      (∀ v : Value,
        ("password_hash", v) ∉ (get_admin_profile sampleDB (some "Bearer tokA")).1.body) ∧
      (get_admin_profile sampleDB (some "Bearer tokA")).1.body.lookup "session_token"
        = some (Value.str "tokA")) :=
  ⟨rfl, rfl, C1_amended_profile sampleDB (some "Bearer tokA") adminA "tokA" rfl rfl⟩

/-- C2: the claim says PUT /blogs/id, DELETE /blogs/id, POST
/blogs/id/posts and GET /blogs/id/posts turn a malformed path id into a
400 InvalidInput before any store lookup.  The code instead lets
`bson.errors.InvalidId` escape on those four endpoints (`ObjectId` is
built with no enclosing try/except — in `get_posts` one line above the
try block meant to catch it), producing an unhandled exception (HTTP
500); the last conjunct shows the catching pattern the other endpoints
use (`get_blog` correctly returns 400). -/
theorem C2_malformed_id_uncaught :
    validObjectId "xyz" = false ∧
    update_blog sampleDB (some "Bearer tokA") "xyz" (some "n") none none = .error () ∧
    delete_blog sampleDB (some "Bearer tokA") "xyz" = .error () ∧
    create_post sampleDB (some "Bearer tokA") "xyz" (some "T") (some "C") none none
      none none oidFresh 9 = .error () ∧
    get_posts sampleDB "xyz" none none none = .error () ∧
    get_blog sampleDB "xyz" = (errResp 400 "Invalid blog ID format", sampleDB) :=
  ⟨rfl, rfl, rfl, rfl, rfl, rfl⟩

/-- C3: for a blog owned by admin `A`, any other authenticated admin `C`
gets 403 Forbidden with the store unchanged on: blog update, blog delete,
post create under the blog, post update/delete of a post of the blog, and
comment delete of a comment of the blog.  The comment conclusion needs no
hypothesis about `db.posts` at all: the ownership check reads the
comment's denormalized `blog_id`, never the parent post. -/
theorem C3_forbidden_not_owner
    (db : DB) (auth : Option String) (A : Oid) (C : AdminDoc)
    (B : BlogDoc) (P : PostDoc) (K : CommentDoc)
    (name? desc? : Option String) (cats? : Option (List String))
    (title? content? excerpt? category? image? author? : Option String)
    (t? e? c? i? : Option String) (catU : Option (Option String))
    (newId : Oid) (now : Nat)
    (hreq : require_admin db auth = .inr C)
    (hCne : C._id ≠ A)
    (hB : B ∈ db.blogs) (hBowner : B.admin_id = A)
    (hBid : ∀ bl ∈ db.blogs, bl._id = B._id → bl.admin_id = A)
    (hBvalid : validObjectId B._id = true)
    (hPfind : db.posts.find? (fun p => p._id == P._id) = some P)
    (hPblog : P.blog_id = B._id)
    (hPvalid : validObjectId P._id = true)
    (hKfind : db.comments.find? (fun c => c._id == K._id) = some K)
    (hKblog : K.blog_id = B._id)
    (hKvalid : validObjectId K._id = true) :
    update_blog db auth B._id name? desc? cats? = .ok (forbiddenResp, db) ∧
    delete_blog db auth B._id = .ok (forbiddenResp, db) ∧
    create_post db auth B._id title? content? excerpt? category? image? author?
      newId now = .ok (forbiddenResp, db) ∧
    update_post db auth P._id t? e? c? i? catU now = .ok (forbiddenResp, db) ∧
    delete_post db auth P._id = (forbiddenResp, db) ∧
    delete_comment db auth K._id = (forbiddenResp, db) := by
  have hnone : db.blogs.find? (fun b => (b._id == B._id) && (b.admin_id == C._id))
      = none := by
    rw [List.find?_eq_none]
    intro bl hbl
    simp only [Bool.and_eq_true, beq_iff_eq, not_and]
    intro h1 h2
    exact hCne (h2.symm.trans (hBid bl hbl h1))
  have howns : ownsBlog db C._id B._id = false := by
    rw [ownsBlog, hnone]
    rfl
  have hoidB : objectIdOfString B._id = Except.ok B._id := by
    unfold objectIdOfString
    rw [hBvalid]
    rfl
  have hoidP : objectIdOfString P._id = Except.ok P._id := by
    unfold objectIdOfString
    rw [hPvalid]
    rfl
  have hoidK : objectIdOfString K._id = Except.ok K._id := by
    unfold objectIdOfString
    rw [hKvalid]
    rfl
  have hverify : verify_blog_ownership db C._id B._id = .ok false := by
    rw [verify_blog_ownership, hoidB]
    show Except.ok (ownsBlog db C._id B._id) = Except.ok false
    rw [howns]
  refine ⟨?_, ?_, ?_, ?_, ?_, ?_⟩
  · simp [update_blog, hreq, hverify]
  · simp [delete_blog, hreq, hverify]
  · simp [create_post, hreq, hverify]
  · simp [update_post, hreq, hoidP, hPfind, hPblog, howns]
  · simp [delete_post, hreq, hoidP, hPfind, hPblog, howns]
  · simp [delete_comment, hreq, hoidK, hKfind, hKblog, howns]

/-- C3, witness: `adminC` is denied on every mutation of `adminA`'s data
in the concrete store (whose posts list is irrelevant to the comment
case). -/
theorem C3_forbidden_not_owner_witness :
    require_admin sampleDB (some "Bearer tokC") = .inr adminC ∧
    adminC._id ≠ oidAdminA ∧
    blogB ∈ sampleDB.blogs ∧
    blogB.admin_id = oidAdminA ∧
    (∀ bl ∈ sampleDB.blogs, bl._id = blogB._id → bl.admin_id = oidAdminA) ∧
    validObjectId blogB._id = true ∧
    sampleDB.posts.find? (fun p => p._id == postP._id) = some postP ∧
    postP.blog_id = blogB._id ∧
    validObjectId postP._id = true ∧
    sampleDB.comments.find? (fun c => c._id == commentK._id) = some commentK ∧
    commentK.blog_id = blogB._id ∧
    validObjectId commentK._id = true ∧
    (update_blog sampleDB (some "Bearer tokC") blogB._id none none none
        = .ok (forbiddenResp, sampleDB) ∧
      delete_blog sampleDB (some "Bearer tokC") blogB._id
        = .ok (forbiddenResp, sampleDB) ∧
      create_post sampleDB (some "Bearer tokC") blogB._id none none none none
          none none oidFresh 9 = .ok (forbiddenResp, sampleDB) ∧
      update_post sampleDB (some "Bearer tokC") postP._id none none none none
          none 9 = .ok (forbiddenResp, sampleDB) ∧
      delete_post sampleDB (some "Bearer tokC") postP._id
        = (forbiddenResp, sampleDB) ∧
      delete_comment sampleDB (some "Bearer tokC") commentK._id
        = (forbiddenResp, sampleDB)) :=
  ⟨rfl, by decide, by decide, rfl, by decide, by decide, rfl, rfl, by decide,
   rfl, rfl, by decide,
   C3_forbidden_not_owner sampleDB (some "Bearer tokC") oidAdminA adminC blogB
     postP commentK none none none none none none none none none none none
     none none none oidFresh 9 rfl (by decide) (by decide) rfl (by decide)
     (by decide) rfl rfl (by decide) rfl rfl (by decide)⟩

/-- C4: a successful login overwrites the admin's stored session token
(the admin's record afterwards holds exactly the new token), and a request
presenting the previously stored token then fails 401; logout clears the
stored token stored for the authenticated admin, and a request presenting
that same token afterwards fails 401.  Tokens are assumed pairwise
distinct across admins (`secrets.token_urlsafe` randomness) and contain no
space character. -/
theorem C4_single_session
    (db : DB) (e pw tok oldTok : String) (A : AdminDoc) (now : Nat)
    (he : e ≠ "") (hp : pw ≠ "")
    (hfind : db.admins.find? (fun a => a.email == e) = some A)
    (hpw : A.password_hash = hash_password pw)
    (hold : A.session_token = some oldTok)
    (hne : tok ≠ oldTok)
    (hOnly : ∀ a ∈ db.admins, a.session_token = some oldTok → a._id = A._id)
    (hids : db.admins.Pairwise fun a b => a._id ≠ b._id)
    (hosp : ∀ c ∈ oldTok.data, c ≠ ' ')
    (A2 : AdminDoc) (tk : String)
    (hreq2 : require_admin db (some ("Bearer " ++ tk)) = .inr A2)
    (hOnly2 : ∀ a ∈ db.admins, a.session_token = some tk → a._id = A2._id)
    (htsp : ∀ c ∈ tk.data, c ≠ ' ') :
    (login_admin db (some e) (some pw) tok now).1 =
      { status := 200,
        body := [("message", .str "Login successful"), ("session_token", .str tok),
                 ("admin", .obj [("id", .str A._id), ("email", .str A.email),
                                 ("name", .str A.name)])] } ∧
    (login_admin db (some e) (some pw) tok now).2 =
      { db with admins := (updateFirst (fun a => a._id == A._id)
          (fun a => { a with session_token := some tok, last_login := some now })
          db.admins) } ∧
    ((login_admin db (some e) (some pw) tok now).2.admins.find?
        fun a => a._id == A._id)
      = some { A with session_token := some tok, last_login := some now } ∧
    require_admin (login_admin db (some e) (some pw) tok now).2
      (some ("Bearer " ++ oldTok)) = .inl invalidSessionResp ∧
    logout_admin db (some ("Bearer " ++ tk)) =
      (msgResp 200 "Logged out successfully",
       { db with admins := (updateFirst (fun a => a._id == A2._id)
           (fun a => { a with session_token := none }) db.admins) }) ∧
    require_admin (logout_admin db (some ("Bearer " ++ tk))).2
      (some ("Bearer " ++ tk)) = .inl invalidSessionResp := by
  have hstep : login_admin db (some e) (some pw) tok now =
      ({ status := 200,
         body := [("message", .str "Login successful"), ("session_token", .str tok),
                  ("admin", .obj [("id", .str A._id), ("email", .str A.email),
                                  ("name", .str A.name)])] },
       { db with admins := (updateFirst (fun a => a._id == A._id)
           (fun a => { a with session_token := some tok, last_login := some now })
           db.admins) }) := by
    simp [login_admin, truthy, he, hp, hfind, hpw]
  have hpairA : db.admins.Pairwise fun a b =>
      ¬((a._id == A._id) = true ∧ (b._id == A._id) = true) := by
    refine hids.imp ?_
    intro a b h
    simp only [beq_iff_eq, not_and]
    intro h1 h2
    exact h (h1.trans h2.symm)
  have hmemA : A ∈ db.admins := List.mem_of_find?_eq_some hfind
  have hfA : db.admins.find? (fun a => a._id == A._id) = some A := by
    apply find?_eq_of_mem_unique _ _ _ hmemA (by simp) hpairA
  have hnold : (updateFirst (fun a => a._id == A._id)
      (fun a => { a with session_token := some tok, last_login := some now })
      db.admins).find? (fun a => a.session_token == some oldTok) = none := by
    apply find?_updateFirst_none
    · intro y hy hqy
      simp only [beq_iff_eq] at hqy ⊢
      exact hOnly y hy hqy
    · intro y
      simp [hne]
    · exact hpairA
  have hpair2 : db.admins.Pairwise fun a b =>
      ¬((a._id == A2._id) = true ∧ (b._id == A2._id) = true) := by
    refine hids.imp ?_
    intro a b h
    simp only [beq_iff_eq, not_and]
    intro h1 h2
    exact h (h1.trans h2.symm)
  have hn2 : (updateFirst (fun a => a._id == A2._id)
      (fun a => { a with session_token := none }) db.admins).find?
      (fun a => a.session_token == some tk) = none := by
    apply find?_updateFirst_none
    · intro y hy hqy
      simp only [beq_iff_eq] at hqy ⊢
      exact hOnly2 y hy hqy
    · intro y
      simp
    · exact hpair2
  have hlogout : logout_admin db (some ("Bearer " ++ tk)) =
      (msgResp 200 "Logged out successfully",
       { db with admins := (updateFirst (fun a => a._id == A2._id)
           (fun a => { a with session_token := none }) db.admins) }) := by
    simp [logout_admin, hreq2]
  refine ⟨by rw [hstep], by rw [hstep], ?_, ?_, hlogout, ?_⟩
  · rw [hstep]
    show (updateFirst (fun a => a._id == A._id)
      (fun a => { a with session_token := some tok, last_login := some now })
      db.admins).find? (fun a => a._id == A._id) = _
    rw [find?_updateFirst_same (fun a => a._id == A._id)
        (fun a => { a with session_token := some tok, last_login := some now })
        db.admins (fun y hy => hy), hfA]
    rfl
  · rw [hstep]
    show require_admin
      { db with admins := (updateFirst (fun a => a._id == A._id)
          (fun a => { a with session_token := some tok, last_login := some now })
          db.admins) } (some ("Bearer " ++ oldTok)) = .inl invalidSessionResp
    simp [require_admin, bearer_isPrefixOf, bearerToken_bearer oldTok hosp, hnold]
  · rw [hlogout]
    show require_admin
      { db with admins := (updateFirst (fun a => a._id == A2._id)
          (fun a => { a with session_token := none }) db.admins) }
      (some ("Bearer " ++ tk)) = .inl invalidSessionResp
    simp [require_admin, bearer_isPrefixOf, bearerToken_bearer tk htsp, hn2]

/-- C4, witness: `adminA` logs in again (new token invalidates "tokA"),
and `adminC` logs out (its token "tokC" stops authenticating). -/
theorem C4_single_session_witness :
    ("a@x.com" : String) ≠ "" ∧ ("pw" : String) ≠ "" ∧
    sampleDB.admins.find? (fun a => a.email == "a@x.com") = some adminA ∧
    adminA.password_hash = hash_password "pw" ∧
    adminA.session_token = some "tokA" ∧
    ("tokN" : String) ≠ "tokA" ∧
    (∀ a ∈ sampleDB.admins, a.session_token = some "tokA" → a._id = adminA._id) ∧
    (sampleDB.admins.Pairwise fun a b => a._id ≠ b._id) ∧
    (∀ c ∈ "tokA".data, c ≠ ' ') ∧
    require_admin sampleDB (some ("Bearer " ++ "tokC")) = .inr adminC ∧
    (∀ a ∈ sampleDB.admins, a.session_token = some "tokC" → a._id = adminC._id) ∧
    (∀ c ∈ "tokC".data, c ≠ ' ') ∧
    ((login_admin sampleDB (some "a@x.com") (some "pw") "tokN" 9).1 =
      { status := 200,
        body := [("message", .str "Login successful"), ("session_token", .str "tokN"),
                 ("admin", .obj [("id", .str adminA._id), ("email", .str adminA.email),
                                 ("name", .str adminA.name)])] } ∧
    (login_admin sampleDB (some "a@x.com") (some "pw") "tokN" 9).2 =
      { sampleDB with admins := (updateFirst (fun a => a._id == adminA._id)
          (fun a => { a with session_token := some "tokN", last_login := some 9 })
          sampleDB.admins) } ∧
    ((login_admin sampleDB (some "a@x.com") (some "pw") "tokN" 9).2.admins.find?
        fun a => a._id == adminA._id)
      = some { adminA with session_token := some "tokN", last_login := some 9 } ∧
    require_admin (login_admin sampleDB (some "a@x.com") (some "pw") "tokN" 9).2
      (some ("Bearer " ++ "tokA")) = .inl invalidSessionResp ∧
    logout_admin sampleDB (some ("Bearer " ++ "tokC")) =
      (msgResp 200 "Logged out successfully",
       { sampleDB with admins := (updateFirst (fun a => a._id == adminC._id)
           (fun a => { a with session_token := none }) sampleDB.admins) }) ∧
    require_admin (logout_admin sampleDB (some ("Bearer " ++ "tokC"))).2
      (some ("Bearer " ++ "tokC")) = .inl invalidSessionResp) :=
  ⟨by decide, by decide, rfl, rfl, rfl, by decide, by decide, by decide, by decide,
   rfl, by decide, by decide,
   C4_single_session sampleDB "a@x.com" "pw" "tokN" "tokA" adminA 9 (by decide)
     (by decide) rfl rfl rfl (by decide) (by decide) (by decide) (by decide)
     adminC "tokC" rfl (by decide) (by decide)⟩

/-- C5: deleting an owned blog deletes the blog document first
(`blogs.delete_one` precedes both `delete_many` cascades, and after that
first call the blog is already unfindable), and the final store holds zero
posts and zero comments whose `blog_id` matches; deleting an owned post
leaves zero comments whose `post_id` matches. -/
theorem C5_cascade_delete
    (db : DB) (auth : Option String) (A : AdminDoc) (B : BlogDoc) (P : PostDoc)
    (hreq : require_admin db auth = .inr A)
    (hown : db.blogs.find? (fun bl => (bl._id == B._id) && (bl.admin_id == A._id))
      = some B)
    (hBvalid : validObjectId B._id = true)
    (hids : db.blogs.Pairwise fun a b => a._id ≠ b._id)
    (hPfind : db.posts.find? (fun p => p._id == P._id) = some P)
    (hPown : ownsBlog db A._id P.blog_id = true)
    (hPvalid : validObjectId P._id = true) :
    delete_blog db auth B._id =
      .ok (msgResp 200 "Blog and all associated content deleted",
        { db with blogs := deleteFirst (fun bl => bl._id == B._id) db.blogs,
                  posts := db.posts.filter (fun p => !(p.blog_id == B._id)),
                  comments := db.comments.filter fun c => !(c.blog_id == B._id) }) ∧
    ((db.posts.filter fun p => !(p.blog_id == B._id)).filter
      fun p => p.blog_id == B._id) = [] ∧
    ((db.comments.filter fun c => !(c.blog_id == B._id)).filter
      fun c => c.blog_id == B._id) = [] ∧
    (deleteFirst (fun bl => bl._id == B._id) db.blogs).find?
      (fun bl => bl._id == B._id) = none ∧
    delete_post db auth P._id =
      (msgResp 200 "Post and associated comments deleted",
       { db with posts := deleteFirst (fun p => p._id == P._id) db.posts,
                 comments := db.comments.filter fun c => !(c.post_id == P._id) }) ∧
    ((db.comments.filter fun c => !(c.post_id == P._id)).filter
      fun c => c.post_id == P._id) = [] := by
  have hpairB : db.blogs.Pairwise fun a b =>
      ¬((a._id == B._id) = true ∧ (b._id == B._id) = true) := by
    refine hids.imp ?_
    intro a b h
    simp only [beq_iff_eq, not_and]
    intro h1 h2
    exact h (h1.trans h2.symm)
  have howns : ownsBlog db A._id B._id = true := by
    rw [ownsBlog, hown]
    rfl
  have hoidB : objectIdOfString B._id = Except.ok B._id := by
    unfold objectIdOfString
    rw [hBvalid]
    rfl
  have hoidP : objectIdOfString P._id = Except.ok P._id := by
    unfold objectIdOfString
    rw [hPvalid]
    rfl
  have hverify : verify_blog_ownership db A._id B._id = .ok true := by
    rw [verify_blog_ownership, hoidB]
    show Except.ok (ownsBlog db A._id B._id) = Except.ok true
    rw [howns]
  have hfB : db.blogs.find? (fun bl => bl._id == B._id) = some B := by
    apply find?_eq_of_mem_unique _ _ _ (List.mem_of_find?_eq_some hown) (by simp)
      hpairB
  refine ⟨?_, filter_not_filter_nil _ _, filter_not_filter_nil _ _, ?_, ?_,
    filter_not_filter_nil _ _⟩
  · simp [delete_blog, hreq, hverify, hoidB, hfB]
  · exact find?_deleteFirst_none _ _ _ (fun y _ h => h) hpairB
  · simp [delete_post, hreq, hoidP, hPfind, hPown]

/-- C5, witness: deleting `blogB` (one post, one comment) and `postP` in
the concrete store. -/
theorem C5_cascade_delete_witness :
    require_admin sampleDB (some "Bearer tokA") = .inr adminA ∧
    sampleDB.blogs.find?
      (fun bl => (bl._id == blogB._id) && (bl.admin_id == adminA._id)) = some blogB ∧
    validObjectId blogB._id = true ∧
    (sampleDB.blogs.Pairwise fun a b => a._id ≠ b._id) ∧
    sampleDB.posts.find? (fun p => p._id == postP._id) = some postP ∧
    ownsBlog sampleDB adminA._id postP.blog_id = true ∧
    validObjectId postP._id = true ∧
    (delete_blog sampleDB (some "Bearer tokA") blogB._id =
      .ok (msgResp 200 "Blog and all associated content deleted",
        { sampleDB with
            blogs := deleteFirst (fun bl => bl._id == blogB._id) sampleDB.blogs,
            posts := sampleDB.posts.filter (fun p => !(p.blog_id == blogB._id)),
            comments := sampleDB.comments.filter fun c => !(c.blog_id == blogB._id) }) ∧
    ((sampleDB.posts.filter fun p => !(p.blog_id == blogB._id)).filter
      fun p => p.blog_id == blogB._id) = [] ∧
    ((sampleDB.comments.filter fun c => !(c.blog_id == blogB._id)).filter
      fun c => c.blog_id == blogB._id) = [] ∧
    (deleteFirst (fun bl => bl._id == blogB._id) sampleDB.blogs).find?
      (fun bl => bl._id == blogB._id) = none ∧
    delete_post sampleDB (some "Bearer tokA") postP._id =
      (msgResp 200 "Post and associated comments deleted",
       { sampleDB with
           posts := deleteFirst (fun p => p._id == postP._id) sampleDB.posts,
           comments := sampleDB.comments.filter fun c => !(c.post_id == postP._id) }) ∧
    ((sampleDB.comments.filter fun c => !(c.post_id == postP._id)).filter
      fun c => c.post_id == postP._id) = []) :=
  ⟨rfl, rfl, by decide, by decide, rfl, rfl, by decide,
   C5_cascade_delete sampleDB (some "Bearer tokA") adminA blogB postP rfl rfl
     (by decide) (by decide) rfl rfl (by decide)⟩

/-- C6, counterexample: the claim says every create of a post with a
non-null category not in the parent blog's set fails 400.  False: the
source checks `if category:`, so the non-null empty-string category — not
a member of the set `["tech"]` — skips validation, the create succeeds
with 201, and the empty string is stored as the post's category. -/
theorem C6_counterexample :
    (create_post sampleDB (some "Bearer tokA") oidBlogB (some "T") (some "C")
        none (some "") none none oidFresh 9).map (fun x => x.1.status) = .ok 201 ∧
    some "" ≠ (none : Option String) ∧
    "" ∉ blogB.categories ∧
    (create_post sampleDB (some "Bearer tokA") oidBlogB (some "T") (some "C")
        none (some "") none none oidFresh 9).map
      (fun x => (x.2.posts.getLast?).map fun p => p.category)
      = .ok (some (some "")) :=
  ⟨rfl, by decide, by decide, rfl⟩

/-- C6 (amended): a create or update carrying a non-null AND non-empty
category fails 400 naming the blog's allowed set whenever the category is
not in the parent blog's current set; create or update with category null
succeeds regardless of the set (an empty-string category also skips the
validation, per the counterexample, and is stored as given). -/
theorem C6_category_validation
    (db : DB) (auth : Option String) (C : AdminDoc) (B : BlogDoc) (P : PostDoc)
    (title? content? excerpt? image? author? : Option String)
    (t? e? c? i? : Option String) (newId : Oid) (now : Nat)
    (hreq : require_admin db auth = .inr C)
    (hown : db.blogs.find? (fun bl => (bl._id == B._id) && (bl.admin_id == C._id))
      = some B)
    (hBfind : db.blogs.find? (fun bl => bl._id == B._id) = some B)
    (hBvalid : validObjectId B._id = true)
    (htitle : truthy title? = true) (hcontent : truthy content? = true)
    (hPfind : db.posts.find? (fun p => p._id == P._id) = some P)
    (hPblog : P.blog_id = B._id)
    (hPvalid : validObjectId P._id = true) :
    (∀ cat : String, cat ≠ "" → cat ∉ B.categories →
      create_post db auth B._id title? content? excerpt? (some cat) image? author?
        newId now = .ok (invalidCategoryResp B.categories, db)) ∧
    (create_post db auth B._id title? content? excerpt? none image? author? newId now
      = .ok ({ status := 201,
               body := [("message", .str "Post created successfully"),
                        ("post", .obj (serialize_doc (PostDoc.toDocCreated
                          { _id := newId, blog_id := B._id, title := title?.getD "",
                            excerpt := excerpt?.getD "", content := content?.getD "",
                            category := none, image := image?,
                            author := author?.getD C.name, likes := 0,
                            created_at := now, updated_at := now })))] },
             { db with posts := db.posts ++
                 [{ _id := newId, blog_id := B._id, title := title?.getD "",
                    excerpt := excerpt?.getD "", content := content?.getD "",
                    category := none, image := image?,
                    author := author?.getD C.name, likes := 0,
                    created_at := now, updated_at := now }] })) ∧
    (∀ cat : String, cat ≠ "" → cat ∉ B.categories →
      update_post db auth P._id t? e? c? i? (some (some cat)) now
        = .ok (invalidCategoryResp B.categories, db)) ∧
    update_post db auth P._id t? e? c? i? (some none) now
      = .ok (msgResp 200 "Post updated successfully",
        { db with posts := (updateFirst (fun p => p._id == P._id) (fun p =>
            { p with title := t?.getD p.title, excerpt := e?.getD p.excerpt,
                     content := c?.getD p.content,
                     image := (match i? with
                               | some i => some i
                               | none => p.image),
                     category := none, updated_at := now }) db.posts) }) := by
  have howns : ownsBlog db C._id B._id = true := by
    rw [ownsBlog, hown]
    rfl
  have hoidB : objectIdOfString B._id = Except.ok B._id := by
    unfold objectIdOfString
    rw [hBvalid]
    rfl
  have hoidP : objectIdOfString P._id = Except.ok P._id := by
    unfold objectIdOfString
    rw [hPvalid]
    rfl
  have hverify : verify_blog_ownership db C._id B._id = .ok true := by
    rw [verify_blog_ownership, hoidB]
    show Except.ok (ownsBlog db C._id B._id) = Except.ok true
    rw [howns]
  have hPown : ownsBlog db C._id P.blog_id = true := by
    rw [hPblog, howns]
  have hctn : truthy (none : Option String) = false := rfl
  refine ⟨?_, ?_, ?_, ?_⟩
  · intro cat hne hmem
    have hct : truthy (some cat) = true := by simp [truthy, hne]
    simp [create_post, hreq, hverify, htitle, hcontent, hoidB, hBfind, hct, hmem]
  · simp [create_post, hreq, hverify, htitle, hcontent, hoidB, hctn]
  · intro cat hne hmem
    have hct : truthy (some cat) = true := by simp [truthy, hne]
    simp [update_post, hreq, hoidP, hPfind, hPown, howns, hPblog, hBfind, hct, hmem]
  · simp [update_post, hreq, hoidP, hPfind, hPown, howns, hPblog, hBfind, hctn]

/-- C6, witness for the amended theorem: category "news" is rejected
against the set `["tech"]`; a null category passes. -/
theorem C6_category_validation_witness :
    require_admin sampleDB (some "Bearer tokA") = .inr adminA ∧
    sampleDB.blogs.find?
      (fun bl => (bl._id == blogB._id) && (bl.admin_id == adminA._id)) = some blogB ∧
    sampleDB.blogs.find? (fun bl => bl._id == blogB._id) = some blogB ∧
    validObjectId blogB._id = true ∧
    truthy (some "T") = true ∧
    truthy (some "C") = true ∧
    sampleDB.posts.find? (fun p => p._id == postP._id) = some postP ∧
    postP.blog_id = blogB._id ∧
    validObjectId postP._id = true ∧
    (("news" : String) ≠ "" ∧ "news" ∉ blogB.categories ∧
      create_post sampleDB (some "Bearer tokA") blogB._id (some "T") (some "C")
        none (some "news") none none oidFresh 9
        = .ok (invalidCategoryResp blogB.categories, sampleDB) ∧
      update_post sampleDB (some "Bearer tokA") postP._id none none none none
        (some (some "news")) 9 = .ok (invalidCategoryResp blogB.categories, sampleDB) ∧
      update_post sampleDB (some "Bearer tokA") postP._id none none none none
        (some none) 9
        = .ok (msgResp 200 "Post updated successfully",
          { sampleDB with posts := (updateFirst (fun p => p._id == postP._id)
              (fun p =>
                { p with title := (none : Option String).getD p.title,
                         excerpt := (none : Option String).getD p.excerpt,
                         content := (none : Option String).getD p.content,
                         image := (match (none : Option String) with
                                   | some i => some i
                                   | none => p.image),
                         category := none, updated_at := 9 }) sampleDB.posts) })) := by
  have h := C6_category_validation sampleDB (some "Bearer tokA") adminA blogB postP
    (some "T") (some "C") none none none none none none none oidFresh 9 rfl rfl rfl
    (by decide) (by decide) (by decide) rfl rfl (by decide)
  exact ⟨rfl, rfl, rfl, by decide, by decide, by decide, rfl, rfl, by decide,
    by decide, by decide, h.1 "news" (by decide) (by decide),
    h.2.2.1 "news" (by decide) (by decide), h.2.2.2⟩

/-- C7: register fails 400 InvalidInput when any of email, password, name
is missing or empty; fails 409 Conflict when an admin with the email
already exists (the store — hence the existing record — is unchanged); on
success the stored credential is the SHA-256 hex digest of the password,
a 64-character string, which differs from the plaintext for every
password whose length is not 64. -/
theorem C7_register
    (db : DB) (email? password? name? : Option String) (newId : Oid) (now : Nat) :
    ((truthy email? && truthy password? && truthy name?) = false →
      register_admin db email? password? name? newId now =
        (errResp 400 "Email, password, and name are required", db)) ∧
    ((truthy email? && truthy password? && truthy name?) = true →
      (∃ a ∈ db.admins, a.email = email?.getD "") →
      register_admin db email? password? name? newId now =
        (errResp 409 "Admin with this email already exists", db)) ∧
    ((truthy email? && truthy password? && truthy name?) = true →
      (∀ a ∈ db.admins, a.email ≠ email?.getD "") →
      register_admin db email? password? name? newId now =
        ({ status := 201,
           body := [("message", .str "Admin registered successfully"),
                    ("admin_id", .str newId)] },
         { db with admins := db.admins ++
             [{ _id := newId, email := email?.getD "",
                password_hash := hash_password (password?.getD ""),
                name := name?.getD "", session_token := none, created_at := now,
                last_login := none }] })) ∧
    (hash_password (password?.getD "")).length = 64 ∧
    ((password?.getD "").length ≠ 64 →
      hash_password (password?.getD "") ≠ password?.getD "") := by
  refine ⟨?_, ?_, ?_, hash_password_length _, hash_password_ne_of_length _⟩
  · intro h
    simp [register_admin, h]
  · intro h hex
    obtain ⟨a, ha, hae⟩ := hex
    have hsome : (db.admins.find? fun x => x.email == email?.getD "").isSome = true := by
      rw [List.find?_isSome]
      exact ⟨a, ha, by simp [hae]⟩
    simp [register_admin, h, hsome]
  · intro h hno
    have hnone : db.admins.find? (fun x => x.email == email?.getD "") = none := by
      rw [List.find?_eq_none]
      intro a ha
      simp [hno a ha]
    simp [register_admin, h, hnone]

/-- C7, witness: missing email fails 400; duplicate of `adminA`'s email
fails 409 leaving the store unchanged; a fresh email succeeds storing the
digest; the digest of "pw" has 64 characters. -/
theorem C7_register_witness :
    ((truthy (none : Option String) && truthy (some "pw") && truthy (some "N"))
        = false ∧
      register_admin sampleDB none (some "pw") (some "N") oidFresh 9 =
        (errResp 400 "Email, password, and name are required", sampleDB)) ∧
    ((truthy (some "a@x.com") && truthy (some "pw") && truthy (some "N")) = true ∧
      (∃ a ∈ sampleDB.admins, a.email = "a@x.com") ∧
      register_admin sampleDB (some "a@x.com") (some "pw") (some "N") oidFresh 9 =
        (errResp 409 "Admin with this email already exists", sampleDB)) ∧
    ((∀ a ∈ sampleDB.admins, a.email ≠ "n@x.com") ∧
      register_admin sampleDB (some "n@x.com") (some "pw") (some "N") oidFresh 9 =
        ({ status := 201,
           body := [("message", .str "Admin registered successfully"),
                    ("admin_id", .str oidFresh)] },
         { sampleDB with admins := sampleDB.admins ++
             [{ _id := oidFresh, email := "n@x.com",
                password_hash := hash_password "pw", name := "N",
                session_token := none, created_at := 9, last_login := none }] })) ∧
    (hash_password "pw").length = 64 :=
  ⟨⟨by decide,
    (C7_register sampleDB none (some "pw") (some "N") oidFresh 9).1 (by decide)⟩,
   ⟨by decide, ⟨adminA, by decide, rfl⟩,
    (C7_register sampleDB (some "a@x.com") (some "pw") (some "N") oidFresh 9).2.1
      (by decide) ⟨adminA, by decide, rfl⟩⟩,
   ⟨by decide,
    (C7_register sampleDB (some "n@x.com") (some "pw") (some "N") oidFresh 9).2.2.1
      (by decide) (by decide)⟩,
   (C7_register sampleDB (some "n@x.com") (some "pw") (some "N") oidFresh 9).2.2.2.1⟩

/-- C8: with a well-formed blog id, integer `page >= 1` and integer
`limit` in [1,100], listing posts returns 200 with the slice
`drop ((page-1)*limit) |> take limit` of the category-filtered posts
sorted by creation time descending — i.e. the posts ranked
`(page-1)*limit+1 .. page*limit` — plus the filtered total and
`pages = (total + limit - 1) / limit`, which is exactly the ceiling of
`total / limit` (second conjunct); a non-integer page or limit fails 400,
as does `page < 1`, `limit < 1`, or `limit > 100`. -/
theorem C8_pagination
    (db : DB) (blog_id : String) (b : Oid) (category? : Option String)
    (hb : objectIdOfString blog_id = .ok b) :
    (∀ ps ls : String, ∀ page limit : Int,
      pyInt? ps = some page → pyInt? ls = some limit →
      1 ≤ page → 1 ≤ limit → limit ≤ 100 →
      get_posts db blog_id (some ps) (some ls) category? =
        .ok ({ status := 200,
               body := [("posts", .arr ((((sortCreatedDesc
                           (db.posts.filter (postQuery b category?))).drop
                           ((page - 1) * limit).toNat).take limit.toNat).map
                         fun p => .obj (serialize_doc p.toDoc))),
                        ("total", .nat (db.posts.filter (postQuery b category?)).length),
                        ("page", .nat page.toNat),
                        ("pages", .nat (((db.posts.filter (postQuery b category?)).length
                            + limit.toNat - 1) / limit.toNat)),
                        ("category", optStr category?)] }, db)) ∧
    (∀ t l : Nat, 1 ≤ l →
      t ≤ ((t + l - 1) / l) * l ∧ ((t + l - 1) / l) * l < t + l) ∧
    (∀ ps : String, ∀ limitArg : Option String, pyInt? ps = none →
      get_posts db blog_id (some ps) limitArg category? =
        .ok (errResp 400 "Invalid page or limit parameter", db)) ∧
    (∀ ls : String, pyInt? ls = none →
      get_posts db blog_id none (some ls) category? =
        .ok (errResp 400 "Invalid page or limit parameter", db)) ∧
    (∀ ps ls : String, ∀ page limit : Int,
      pyInt? ps = some page → pyInt? ls = some limit →
      (page < 1 ∨ limit < 1 ∨ limit > 100) →
      get_posts db blog_id (some ps) (some ls) category? =
        .ok (errResp 400 "Page must be >= 1 and limit must be between 1 and 100",
          db)) := by
  refine ⟨?_, ?_, ?_, ?_, ?_⟩
  · intro ps ls page limit hps hls hp1 hl1 hl100
    have c1 : decide (page < 1) = false := decide_eq_false (by omega)
    have c2 : decide (limit < 1) = false := decide_eq_false (by omega)
    have c3 : decide (limit > 100) = false := decide_eq_false (by omega)
    simp [get_posts, hps, hls, c1, c2, c3, hb]
  · intro t l hl
    have h2 : (t + l - 1) % l < l := Nat.mod_lt _ (by omega)
    have h1 : l * ((t + l - 1) / l) + (t + l - 1) % l = t + l - 1 :=
      Nat.div_add_mod (t + l - 1) l
    obtain ⟨m, hm⟩ : ∃ m, l * ((t + l - 1) / l) = m := ⟨_, rfl⟩
    rw [hm] at h1
    simp only [Nat.mul_comm ((t + l - 1) / l) l, hm]
    omega
  · intro ps limitArg hps
    cases limitArg with
    | none => simp [get_posts, hps]
    | some ls => simp [get_posts, hps]
  · intro ls hls
    simp [get_posts, hls]
  · intro ps ls page limit hps hls hbad
    simp only [get_posts, hps, hls]
    rcases hbad with h | h | h <;> simp [h]

/-- C8, witness: a blog with 25 posts (creation times 1..25), `page=2`,
`limit=10`: the returned slice is ranks 11-20, i.e. creation times 15
down to 6, `total = 25`, `pages = 3`. -/
theorem C8_pagination_witness :
    objectIdOfString oidBlogB = .ok oidBlogB ∧
    pyInt? "2" = some 2 ∧
    pyInt? "10" = some 10 ∧
    pagedDB.posts.length = 25 ∧
    get_posts pagedDB oidBlogB (some "2") (some "10") none =
      .ok ({ status := 200,
             body := [("posts", .arr ((((sortCreatedDesc
                         (pagedDB.posts.filter (postQuery oidBlogB none))).drop
                         (((2 : Int) - 1) * 10).toNat).take (10 : Int).toNat).map
                       fun p => .obj (serialize_doc p.toDoc))),
                      ("total", .nat (pagedDB.posts.filter (postQuery oidBlogB none)).length),
                      ("page", .nat (2 : Int).toNat),
                      ("pages", .nat (((pagedDB.posts.filter (postQuery oidBlogB none)).length
                          + (10 : Int).toNat - 1) / (10 : Int).toNat)),
                      ("category", optStr none)] }, pagedDB) ∧
    ((((sortCreatedDesc (pagedDB.posts.filter (postQuery oidBlogB none))).drop 10).take
        10).map (fun p => p.created_at)) = [15, 14, 13, 12, 11, 10, 9, 8, 7, 6] ∧
    (pagedDB.posts.filter (postQuery oidBlogB none)).length = 25 ∧
    ((pagedDB.posts.filter (postQuery oidBlogB none)).length + 10 - 1) / 10 = 3 :=
  ⟨rfl, by decide, by decide, by decide,
   (C8_pagination pagedDB oidBlogB oidBlogB none rfl).1 "2" "10" 2 10 (by decide)
     (by decide) (by decide) (by decide) (by decide),
   by decide, by decide, by decide⟩

/-- C9: liking an existing post (no authentication involved) increments
exactly that post's `likes` by 1 — the store splits as `l₁ ++ P :: l₂`
before and `l₁ ++ incLikes P :: l₂` after, all other collections are
untouched and no field other than `likes` changes anywhere — and a second
like increments it again, returning `P.likes + 2`. -/
theorem C9_like_increments
    (db : DB) (s : String) (pid : Oid) (P : PostDoc)
    (hs : objectIdOfString s = .ok pid)
    (hfind : db.posts.find? (fun p => p._id == pid) = some P) :
    like_post db s = .ok ({ status := 200, body := [("likes", .nat (P.likes + 1))] },
      { db with posts := updateFirst (fun p => p._id == pid) incLikes db.posts }) ∧
    (∃ l₁ l₂, db.posts = l₁ ++ P :: l₂ ∧
      updateFirst (fun p => p._id == pid) incLikes db.posts = l₁ ++ incLikes P :: l₂) ∧
    (updateFirst (fun p => p._id == pid) incLikes db.posts).map eraseLikes =
      db.posts.map eraseLikes ∧
    ({ db with posts := updateFirst (fun p => p._id == pid) incLikes db.posts } : DB).admins
        = db.admins ∧
    ({ db with posts := updateFirst (fun p => p._id == pid) incLikes db.posts } : DB).blogs
        = db.blogs ∧
    ({ db with posts := updateFirst (fun p => p._id == pid) incLikes db.posts } : DB).comments
        = db.comments ∧
    like_post { db with posts := updateFirst (fun p => p._id == pid) incLikes db.posts } s =
      .ok ({ status := 200, body := [("likes", .nat (P.likes + 2))] },
        { db with posts := (updateFirst (fun p => p._id == pid) incLikes
            (updateFirst (fun p => p._id == pid) incLikes db.posts)) }) := by
  have hfind1 : (updateFirst (fun p => p._id == pid) incLikes db.posts).find?
      (fun p => p._id == pid) = some (incLikes P) := by
    rw [find?_updateFirst_same (fun p => p._id == pid) incLikes db.posts
      (fun y hy => hy), hfind]
    rfl
  have hfind2 : (updateFirst (fun p => p._id == pid) incLikes
      (updateFirst (fun p => p._id == pid) incLikes db.posts)).find?
      (fun p => p._id == pid) = some (incLikes (incLikes P)) := by
    rw [find?_updateFirst_same (fun p => p._id == pid) incLikes
      (updateFirst (fun p => p._id == pid) incLikes db.posts) (fun y hy => hy),
      hfind1]
    rfl
  refine ⟨?_, updateFirst_split _ _ _ _ hfind, ?_, rfl, rfl, rfl, ?_⟩
  · simp [like_post, hs, hfind, hfind1, incLikes]
  · exact map_updateFirst _ _ _ _ (fun y => rfl)
  · simp [like_post, hs, hfind1, hfind2, incLikes]

/-- C9, witness: two successive likes of `postP` (zero likes initially)
return counters 1 and 2. -/
theorem C9_like_increments_witness :
    objectIdOfString oidPostP = .ok oidPostP ∧
    sampleDB.posts.find? (fun p => p._id == oidPostP) = some postP ∧
    (like_post sampleDB oidPostP =
      .ok ({ status := 200, body := [("likes", .nat (postP.likes + 1))] },
        { sampleDB with posts :=
            (updateFirst (fun p => p._id == oidPostP) incLikes sampleDB.posts) }) ∧
    (∃ l₁ l₂, sampleDB.posts = l₁ ++ postP :: l₂ ∧
      updateFirst (fun p => p._id == oidPostP) incLikes sampleDB.posts =
        l₁ ++ incLikes postP :: l₂) ∧
    (updateFirst (fun p => p._id == oidPostP) incLikes sampleDB.posts).map eraseLikes =
      sampleDB.posts.map eraseLikes ∧
    ({ sampleDB with posts :=
        (updateFirst (fun p => p._id == oidPostP) incLikes sampleDB.posts) } : DB).admins
      = sampleDB.admins ∧
    ({ sampleDB with posts :=
        (updateFirst (fun p => p._id == oidPostP) incLikes sampleDB.posts) } : DB).blogs
      = sampleDB.blogs ∧
    ({ sampleDB with posts :=
        (updateFirst (fun p => p._id == oidPostP) incLikes sampleDB.posts) } : DB).comments
      = sampleDB.comments ∧
    like_post { sampleDB with posts :=
        (updateFirst (fun p => p._id == oidPostP) incLikes sampleDB.posts) } oidPostP =
      .ok ({ status := 200, body := [("likes", .nat (postP.likes + 2))] },
        { sampleDB with posts := (updateFirst (fun p => p._id == oidPostP) incLikes
            (updateFirst (fun p => p._id == oidPostP) incLikes sampleDB.posts)) })) :=
  ⟨rfl, rfl, C9_like_increments sampleDB oidPostP oidPostP postP rfl rfl⟩

/-- C10: listing posts for a well-formed blog id that matches no existing
blog (in a store whose posts all reference existing blogs) does not 404:
it returns 200 with an empty list, `total = 0` and `pages = 0` — both at
the default `page=1, limit=10` and for any valid page/limit — whereas
GET /blogs/id on the same id returns 404. -/
theorem C10_list_absent_blog
    (db : DB) (s : String) (b : Oid)
    (hb : objectIdOfString s = .ok b)
    (hint : blogIntegrity db)
    (hnone : ∀ bl ∈ db.blogs, bl._id ≠ b) :
    get_posts db s none none none =
      .ok ({ status := 200,
             body := [("posts", .arr []), ("total", .nat 0), ("page", .nat 1),
                      ("pages", .nat 0), ("category", .null)] }, db) ∧
    (∀ ps ls : String, ∀ page limit : Int,
      pyInt? ps = some page → pyInt? ls = some limit →
      1 ≤ page → 1 ≤ limit → limit ≤ 100 →
      get_posts db s (some ps) (some ls) none =
        .ok ({ status := 200,
               body := [("posts", .arr []), ("total", .nat 0),
                        ("page", .nat page.toNat), ("pages", .nat 0),
                        ("category", .null)] }, db)) ∧
    get_blog db s = (errResp 404 "Blog not found", db) := by
  have hfil : db.posts.filter (postQuery b none) = [] := by
    rw [List.filter_eq_nil_iff]
    intro p hp
    obtain ⟨bl, hbl, hblid⟩ := hint p hp
    have hne : p.blog_id ≠ b := fun he => hnone bl hbl (hblid.trans he)
    simp [postQuery, truthy, hne]
  have hblognone : db.blogs.find? (fun bl => bl._id == b) = none := by
    rw [List.find?_eq_none]
    intro bl hbl
    simp [hnone bl hbl]
  refine ⟨?_, ?_, ?_⟩
  · simp [get_posts, hb, hfil, sortCreatedDesc, optStr]
  · intro ps ls page limit hps hls hp1 hl1 hl100
    have c1 : decide (page < 1) = false := decide_eq_false (by omega)
    have c2 : decide (limit < 1) = false := decide_eq_false (by omega)
    have c3 : decide (limit > 100) = false := decide_eq_false (by omega)
    have hdiv : (limit.toNat - 1) / limit.toNat = 0 :=
      Nat.div_eq_of_lt (by omega)
    simp [get_posts, hps, hls, c1, c2, c3, hb, hfil, hdiv, sortCreatedDesc, optStr]
  · simp [get_blog, hb, hblognone]

/-- C10, witness: `oidAbsent` names no blog in the concrete store (whose
one post belongs to the existing `blogB`): listing returns 200/empty/0/0,
fetching the blog returns 404. -/
theorem C10_list_absent_blog_witness :
    objectIdOfString oidAbsent = .ok oidAbsent ∧
    blogIntegrity sampleDB ∧
    (∀ bl ∈ sampleDB.blogs, bl._id ≠ oidAbsent) ∧
    (get_posts sampleDB oidAbsent none none none =
      .ok ({ status := 200,
             body := [("posts", .arr []), ("total", .nat 0), ("page", .nat 1),
                      ("pages", .nat 0), ("category", .null)] }, sampleDB) ∧
    (∀ ps ls : String, ∀ page limit : Int,
      pyInt? ps = some page → pyInt? ls = some limit →
      1 ≤ page → 1 ≤ limit → limit ≤ 100 →
      get_posts sampleDB oidAbsent (some ps) (some ls) none =
        .ok ({ status := 200,
               body := [("posts", .arr []), ("total", .nat 0),
                        ("page", .nat page.toNat), ("pages", .nat 0),
                        ("category", .null)] }, sampleDB)) ∧
    get_blog sampleDB oidAbsent = (errResp 404 "Blog not found", sampleDB)) :=
  ⟨rfl, by unfold blogIntegrity; decide, by decide,
   C10_list_absent_blog sampleDB oidAbsent oidAbsent rfl
     (by unfold blogIntegrity; decide) (by decide)⟩

end MultiBlog
